import Mathlib

/-! Verification of the CIAP2 <-> CID10 converter core (`app_streamlit.py`).
Python strings are modelled as lists of Unicode code points (`PyStr`);
the pandas dataframe is modelled as a list of rows with named fields. -/

/-- A Python string, modelled as its list of Unicode code points. -/
abbrev PyStr := List Nat

/-- Encode a Lean string literal as a `PyStr` (its list of code points). -/
def pys (s : String) : PyStr := s.data.map Char.toNat

/-- Whitespace code points handled by `str.strip()` (ASCII subset). -/
def is_py_space (c : Nat) : Bool :=
  c == 32 || c == 9 || c == 10 || c == 13 || c == 11 || c == 12

/-- `str.upper()` on one code point (ASCII letters). -/
def upperChar (c : Nat) : Nat := if 97 ≤ c ∧ c ≤ 122 then c - 32 else c

/-- `s.strip()`: drop leading and trailing whitespace. -/
def pyStrip (s : PyStr) : PyStr :=
  ((s.dropWhile is_py_space).reverse.dropWhile is_py_space).reverse

/-- `s.upper()`: uppercase every character. -/
def pyUpper (s : PyStr) : PyStr := s.map upperChar

/-- `s.replace(" ", "")`: remove every space (U+0020) character. -/
def removeSpaces (s : PyStr) : PyStr := s.filter (fun c => c != 32)

/-- `normalize_code(value)`: `(value or "").strip().upper().replace(" ", "")`. -/
def normalize_code (value : Option PyStr) : PyStr :=
  removeSpaces (pyUpper (pyStrip (value.getD [])))

/-- One row of the loaded dataframe: the original CSV columns plus the two
normalized lookup columns derived by `load_base`. -/
structure Row where
  CIAP : PyStr
  DescricaoCIAP : PyStr
  CID10 : PyStr
  DescricaoCID : PyStr
  CIAP_N : PyStr
  CID10_N : PyStr
deriving DecidableEq

/-- A parsed CSV source: header names and cell rows, cells aligned
positionally with the header. -/
structure Source where
  cols : List PyStr
  cells : List (List PyStr)
deriving DecidableEq

/-- The data interpolated into the `ValueError` message raised by `load_base`:
the required column set and the columns actually found. -/
structure SchemaErr where
  required : List PyStr
  found : List PyStr
deriving DecidableEq

/-- Read the cell under the named header column of one CSV row. -/
def getField (cols : List PyStr) (row : List PyStr) (name : PyStr) : PyStr :=
  (((cols.zip row).find? (fun p => p.1 == name)).map (fun p => p.2)).getD []

/-- `load_base`: fail unless both required code columns are present, default
each missing optional description column to the empty string, and derive the
normalized `CIAP_N` / `CID10_N` columns. -/
def load_base (src : Source) : Except SchemaErr (List Row) :=
  if (pys "CIAP") ∈ src.cols ∧ (pys "CID10") ∈ src.cols then
    Except.ok (src.cells.map (fun r =>
      { CIAP := getField src.cols r (pys "CIAP"),
        DescricaoCIAP :=
          if (pys "DescricaoCIAP") ∈ src.cols then
            getField src.cols r (pys "DescricaoCIAP")
          else [],
        CID10 := getField src.cols r (pys "CID10"),
        DescricaoCID :=
          if (pys "DescricaoCID") ∈ src.cols then
            getField src.cols r (pys "DescricaoCID")
          else [],
        CIAP_N := normalize_code (some (getField src.cols r (pys "CIAP"))),
        CID10_N := normalize_code (some (getField src.cols r (pys "CID10"))) }))
  else
    Except.error { required := [pys "CIAP", pys "CID10"], found := src.cols }

/-- One output record of `lookup` (a row of the result dataframe). -/
structure ResultRec where
  Entrada : PyStr
  Tipo : PyStr
  Resultado : PyStr
  CIAP : PyStr
  DescricaoCIAP : PyStr
  CID10 : PyStr
  DescricaoCID : PyStr
deriving DecidableEq

/-- The sentinel placed in `Resultado` when a code has no match. -/
def NAO_ENCONTRADO : PyStr := pys "NÃO ENCONTRADO"

/-- The mode string selecting the CIAP→CID branch. -/
def modeCIAPtoCID : PyStr := pys "CIAP → CID"

/-- The other mode string offered by the UI (any mode other than
`modeCIAPtoCID` takes the CID→CIAP branch). -/
def modeCIDtoCIAP : PyStr := pys "CID → CIAP"

/-- `lookup(df, mode, codes)`: for each input code, select the rows whose
direction-selected normalized column equals the code; emit one record per
matching row, or a single "NÃO ENCONTRADO" record when there is none. -/
def lookup (df : List Row) (mode : PyStr) (codes : List PyStr) : List ResultRec :=
  if mode = modeCIAPtoCID then
    codes.foldl (fun results c =>
      let hit := df.filter (fun row => row.CIAP_N == c)
      if hit.isEmpty then
        results ++ [{ Entrada := c, Tipo := pys "CIAP", Resultado := NAO_ENCONTRADO,
                      CIAP := c, DescricaoCIAP := [], CID10 := [], DescricaoCID := [] }]
      else
        results ++ hit.map (fun row =>
          { Entrada := c, Tipo := pys "CIAP", Resultado := row.CID10,
            CIAP := row.CIAP, DescricaoCIAP := row.DescricaoCIAP,
            CID10 := row.CID10, DescricaoCID := row.DescricaoCID })) []
  else
    codes.foldl (fun results c =>
      let hit := df.filter (fun row => row.CID10_N == c)
      if hit.isEmpty then
        results ++ [{ Entrada := c, Tipo := pys "CID", Resultado := NAO_ENCONTRADO,
                      CIAP := [], DescricaoCIAP := [], CID10 := c, DescricaoCID := [] }]
      else
        results ++ hit.map (fun row =>
          { Entrada := c, Tipo := pys "CID", Resultado := row.CIAP,
            CIAP := row.CIAP, DescricaoCIAP := row.DescricaoCIAP,
            CID10 := row.CID10, DescricaoCID := row.DescricaoCID })) []

/-- The matched / not-found discrimination the presentation layer applies to a
result record (`r["Resultado"] == "NÃO ENCONTRADO"`). -/
def is_not_found (r : ResultRec) : Bool := r.Resultado == NAO_ENCONTRADO

/-- `lookup` with the dataframe threaded as explicit state: every iteration
reads the table and passes it through unchanged, mirroring that the Python
code only ever reads `df` (via `df.loc` and row field access). -/
def lookup_state (df0 : List Row) (mode : PyStr) (codes : List PyStr) :
    List Row × List ResultRec :=
  if mode = modeCIAPtoCID then
    codes.foldl (fun st c =>
      let df := st.1
      let hit := df.filter (fun row => row.CIAP_N == c)
      if hit.isEmpty then
        (df, st.2 ++ [{ Entrada := c, Tipo := pys "CIAP", Resultado := NAO_ENCONTRADO,
                        CIAP := c, DescricaoCIAP := [], CID10 := [], DescricaoCID := [] }])
      else
        (df, st.2 ++ hit.map (fun row =>
          { Entrada := c, Tipo := pys "CIAP", Resultado := row.CID10,
            CIAP := row.CIAP, DescricaoCIAP := row.DescricaoCIAP,
            CID10 := row.CID10, DescricaoCID := row.DescricaoCID }))) (df0, [])
  else
    codes.foldl (fun st c =>
      let df := st.1
      let hit := df.filter (fun row => row.CID10_N == c)
      if hit.isEmpty then
        (df, st.2 ++ [{ Entrada := c, Tipo := pys "CID", Resultado := NAO_ENCONTRADO,
                        CIAP := [], DescricaoCIAP := [], CID10 := c, DescricaoCID := [] }])
      else
        (df, st.2 ++ hit.map (fun row =>
          { Entrada := c, Tipo := pys "CID", Resultado := row.CIAP,
            CIAP := row.CIAP, DescricaoCIAP := row.DescricaoCIAP,
            CID10 := row.CID10, DescricaoCID := row.DescricaoCID }))) (df0, [])

/-- Build one loaded row the way `load_base` does (normalized columns derived
by `normalize_code` from the raw code columns). -/
def mkRow (a da b db : PyStr) : Row :=
  { CIAP := a, DescricaoCIAP := da, CID10 := b, DescricaoCID := db,
    CIAP_N := normalize_code (some a), CID10_N := normalize_code (some b) }

/-- The two-row example table from the specification. -/
def exDf : List Row :=
  [mkRow (pys "A01") (pys "Diarrhea") (pys "A09") (pys "Diarrhea and gastroenteritis"),
   mkRow (pys "K86") (pys "Pancreas disorder") (pys "K86") (pys "Other diseases of pancreas")]

/-- The result group `lookup` produces for one code in the CIAP→CID branch. -/
def lookupOneA (df : List Row) (c : PyStr) : List ResultRec :=
  let hit := df.filter (fun row => row.CIAP_N == c)
  if hit.isEmpty then
    [{ Entrada := c, Tipo := pys "CIAP", Resultado := NAO_ENCONTRADO,
       CIAP := c, DescricaoCIAP := [], CID10 := [], DescricaoCID := [] }]
  else
    hit.map (fun row =>
      { Entrada := c, Tipo := pys "CIAP", Resultado := row.CID10,
        CIAP := row.CIAP, DescricaoCIAP := row.DescricaoCIAP,
        CID10 := row.CID10, DescricaoCID := row.DescricaoCID })

/-- The result group `lookup` produces for one code in the CID→CIAP branch. -/
def lookupOneB (df : List Row) (c : PyStr) : List ResultRec :=
  let hit := df.filter (fun row => row.CID10_N == c)
  if hit.isEmpty then
    [{ Entrada := c, Tipo := pys "CID", Resultado := NAO_ENCONTRADO,
       CIAP := [], DescricaoCIAP := [], CID10 := c, DescricaoCID := [] }]
  else
    hit.map (fun row =>
      { Entrada := c, Tipo := pys "CID", Resultado := row.CIAP,
        CIAP := row.CIAP, DescricaoCIAP := row.DescricaoCIAP,
        CID10 := row.CID10, DescricaoCID := row.DescricaoCID })

lemma foldl_append_flatMap {α β : Type} (g : α → List β) :
    ∀ (cs : List α) (acc : List β),
      cs.foldl (fun res c => res ++ g c) acc = acc ++ cs.flatMap g := by
  intro cs
  induction cs with
  | nil => intro acc; simp
  | cons c cs ih => intro acc; simp [ih]

lemma foldl_state_pair {α β γ : Type} (g : γ → α → List β) :
    ∀ (cs : List α) (d : γ) (acc : List β),
      cs.foldl (fun st c => (st.1, st.2 ++ g st.1 c)) (d, acc) =
        (d, acc ++ cs.flatMap (g d)) := by
  intro cs
  induction cs with
  | nil => intro d acc; simp
  | cons c cs ih => intro d acc; simp [ih]

lemma lookup_eq_flatMap (df : List Row) (mode : PyStr) (codes : List PyStr) :
    lookup df mode codes =
      if mode = modeCIAPtoCID then codes.flatMap (lookupOneA df)
      else codes.flatMap (lookupOneB df) := by
  unfold lookup
  by_cases hm : mode = modeCIAPtoCID
  · rw [if_pos hm, if_pos hm]
    have hfun : (fun (results : List ResultRec) (c : PyStr) =>
        let hit := df.filter (fun row => row.CIAP_N == c)
        if hit.isEmpty then
          results ++ [{ Entrada := c, Tipo := pys "CIAP", Resultado := NAO_ENCONTRADO,
                        CIAP := c, DescricaoCIAP := [], CID10 := [], DescricaoCID := [] }]
        else
          results ++ hit.map (fun row =>
            { Entrada := c, Tipo := pys "CIAP", Resultado := row.CID10,
              CIAP := row.CIAP, DescricaoCIAP := row.DescricaoCIAP,
              CID10 := row.CID10, DescricaoCID := row.DescricaoCID })) =
        (fun results c => results ++ lookupOneA df c) := by
      funext results c
      by_cases hc : (df.filter (fun row => row.CIAP_N == c)).isEmpty
      · simp [lookupOneA, hc]
      · simp [lookupOneA, hc]
    rw [hfun, foldl_append_flatMap]
    simp
  · rw [if_neg hm, if_neg hm]
    have hfun : (fun (results : List ResultRec) (c : PyStr) =>
        let hit := df.filter (fun row => row.CID10_N == c)
        if hit.isEmpty then
          results ++ [{ Entrada := c, Tipo := pys "CID", Resultado := NAO_ENCONTRADO,
                        CIAP := [], DescricaoCIAP := [], CID10 := c, DescricaoCID := [] }]
        else
          results ++ hit.map (fun row =>
            { Entrada := c, Tipo := pys "CID", Resultado := row.CIAP,
              CIAP := row.CIAP, DescricaoCIAP := row.DescricaoCIAP,
              CID10 := row.CID10, DescricaoCID := row.DescricaoCID })) =
        (fun results c => results ++ lookupOneB df c) := by
      funext results c
      by_cases hc : (df.filter (fun row => row.CID10_N == c)).isEmpty
      · simp [lookupOneB, hc]
      · simp [lookupOneB, hc]
    rw [hfun, foldl_append_flatMap]
    simp

lemma lookup_append (df : List Row) (mode : PyStr) (cs₁ cs₂ : List PyStr) :
    lookup df mode (cs₁ ++ cs₂) = lookup df mode cs₁ ++ lookup df mode cs₂ := by
  rw [lookup_eq_flatMap, lookup_eq_flatMap, lookup_eq_flatMap]
  by_cases hm : mode = modeCIAPtoCID
  · simp [hm]
  · simp [hm]

lemma lookup_singleton_A (df : List Row) (c : PyStr) :
    lookup df modeCIAPtoCID [c] = lookupOneA df c := by
  rw [lookup_eq_flatMap, if_pos rfl]
  simp

lemma lookup_singleton_B (df : List Row) (mode : PyStr) (c : PyStr)
    (h : mode ≠ modeCIAPtoCID) : lookup df mode [c] = lookupOneB df c := by
  rw [lookup_eq_flatMap, if_neg h]
  simp

lemma headAll_dropWhile (p : Nat → Bool) (l : PyStr) :
    ((l.dropWhile p).head?.all fun c => !(p c)) = true := by
  induction l with
  | nil => rfl
  | cons a t ih =>
    by_cases ha : p a
    · simpa [List.dropWhile_cons_of_pos ha] using ih
    · simp [List.dropWhile_cons_of_neg ha, ha]

lemma dropWhile_eq_self_of_head (p : Nat → Bool) (l : PyStr)
    (h : (l.head?.all fun c => !(p c)) = true) : l.dropWhile p = l := by
  cases l with
  | nil => rfl
  | cons a t =>
    have ha : p a = false := by simpa using h
    simp [List.dropWhile_cons, ha]

lemma getLastAll_dropWhile (p q : Nat → Bool) (l : PyStr)
    (h : (l.getLast?.all q) = true) : ((l.dropWhile p).getLast?.all q) = true := by
  obtain ⟨pre, hpre⟩ := List.dropWhile_suffix (l := l) p
  cases hdl : l.dropWhile p with
  | nil => rfl
  | cons b u =>
    obtain ⟨x, hx⟩ : ∃ x, (b :: u).getLast? = some x :=
      ⟨(b :: u).getLast (by simp), List.getLast?_eq_getLast _ _⟩
    have hgl : l.getLast? = some x := by
      rw [← hpre, List.getLast?_append, hdl, hx]
      rfl
    rw [hx]
    rw [hgl] at h
    simpa using h

lemma pyStrip_head (s : PyStr) :
    ((pyStrip s).head?.all fun c => !(is_py_space c)) = true := by
  unfold pyStrip
  rw [List.head?_reverse]
  apply getLastAll_dropWhile
  rw [List.getLast?_reverse]
  exact headAll_dropWhile _ _

lemma pyStrip_last (s : PyStr) :
    ((pyStrip s).getLast?.all fun c => !(is_py_space c)) = true := by
  unfold pyStrip
  rw [List.getLast?_reverse]
  exact headAll_dropWhile _ _

lemma upperChar_space (c : Nat) : is_py_space (upperChar c) = is_py_space c := by
  by_cases h : 97 ≤ c ∧ c ≤ 122
  · have h1 : is_py_space (c - 32) = false := by
      simp only [is_py_space, Bool.or_eq_false_iff, beq_eq_false_iff_ne, ne_eq]
      omega
    have h2 : is_py_space c = false := by
      simp only [is_py_space, Bool.or_eq_false_iff, beq_eq_false_iff_ne, ne_eq]
      omega
    simp [upperChar, h, h1, h2]
  · simp [upperChar, h]

lemma upperChar_idem (c : Nat) : upperChar (upperChar c) = upperChar c := by
  by_cases h : 97 ≤ c ∧ c ≤ 122
  · have hc : upperChar c = c - 32 := by
      unfold upperChar
      exact if_pos h
    have h' : ¬ (97 ≤ c - 32 ∧ c - 32 ≤ 122) := by omega
    rw [hc]
    unfold upperChar
    exact if_neg h'
  · have hc : upperChar c = c := by
      unfold upperChar
      exact if_neg h
    rw [hc]
    exact hc

lemma headAll_map (f : Nat → Nat) (q : Nat → Bool) (l : PyStr) :
    ((l.map f).head?.all q) = (l.head?.all fun a => q (f a)) := by
  cases l <;> simp

lemma getLastAll_map (f : Nat → Nat) (q : Nat → Bool) (l : PyStr) :
    ((l.map f).getLast?.all q) = (l.getLast?.all fun a => q (f a)) := by
  rw [List.getLast?_map]
  cases h : l.getLast? <;> simp

lemma pyUpper_head (l : PyStr) (h : (l.head?.all fun c => !(is_py_space c)) = true) :
    ((pyUpper l).head?.all fun c => !(is_py_space c)) = true := by
  unfold pyUpper
  rw [headAll_map]
  have he : (fun a => !(is_py_space (upperChar a))) = (fun a => !(is_py_space a)) := by
    funext a
    rw [upperChar_space]
  rw [he]
  exact h

lemma pyUpper_last (l : PyStr) (h : (l.getLast?.all fun c => !(is_py_space c)) = true) :
    ((pyUpper l).getLast?.all fun c => !(is_py_space c)) = true := by
  unfold pyUpper
  rw [getLastAll_map]
  have he : (fun a => !(is_py_space (upperChar a))) = (fun a => !(is_py_space a)) := by
    funext a
    rw [upperChar_space]
  rw [he]
  exact h

lemma removeSpaces_head (l : PyStr) (h : (l.head?.all fun c => !(is_py_space c)) = true) :
    ((removeSpaces l).head?.all fun c => !(is_py_space c)) = true := by
  cases l with
  | nil => rfl
  | cons a t =>
    have ha : is_py_space a = false := by simpa using h
    have ha32 : (a != 32) = true := by
      simp only [is_py_space, Bool.or_eq_false_iff, beq_eq_false_iff_ne, ne_eq] at ha
      simp [ha.1.1.1.1.1]
    simp [removeSpaces, List.filter_cons, ha32, ha]

lemma removeSpaces_last (l : PyStr) (h : (l.getLast?.all fun c => !(is_py_space c)) = true) :
    ((removeSpaces l).getLast?.all fun c => !(is_py_space c)) = true := by
  have h' : (l.reverse.head?.all fun c => !(is_py_space c)) = true := by
    rw [List.head?_reverse]
    exact h
  have hr := removeSpaces_head l.reverse h'
  rw [List.getLast?_eq_head?_reverse]
  have hcomm : (removeSpaces l).reverse = removeSpaces l.reverse := by
    simp only [removeSpaces]
    exact (List.filter_reverse _ _).symm
  rw [hcomm]
  exact hr

lemma normalize_head (v : Option PyStr) :
    ((normalize_code v).head?.all fun c => !(is_py_space c)) = true := by
  unfold normalize_code
  exact removeSpaces_head _ (pyUpper_head _ (pyStrip_head _))

lemma normalize_last (v : Option PyStr) :
    ((normalize_code v).getLast?.all fun c => !(is_py_space c)) = true := by
  unfold normalize_code
  exact removeSpaces_last _ (pyUpper_last _ (pyStrip_last _))

lemma pyStrip_of_no_edge (s : PyStr)
    (h1 : (s.head?.all fun c => !(is_py_space c)) = true)
    (h2 : (s.getLast?.all fun c => !(is_py_space c)) = true) :
    pyStrip s = s := by
  unfold pyStrip
  rw [dropWhile_eq_self_of_head _ _ h1]
  rw [dropWhile_eq_self_of_head]
  · exact List.reverse_reverse s
  · rw [List.head?_reverse]
    exact h2

lemma mem_normalize (v : Option PyStr) (c : Nat) (hc : c ∈ normalize_code v) :
    upperChar c = c ∧ (c != 32) = true := by
  unfold normalize_code removeSpaces at hc
  obtain ⟨hm, hne⟩ := List.mem_filter.1 hc
  obtain ⟨d, hd, he⟩ := List.mem_map.1 hm
  constructor
  · rw [← he]
    exact upperChar_idem d
  · exact hne

lemma map_id_of_mem {l : List Nat} {f : Nat → Nat} (h : ∀ c ∈ l, f c = c) :
    l.map f = l := by
  induction l with
  | nil => rfl
  | cons a t ih =>
    rw [List.map_cons, h a (List.mem_cons_self a t),
      ih (fun c hc => h c (List.mem_cons_of_mem a hc))]

lemma lookup_state_eq (df : List Row) (mode : PyStr) (codes : List PyStr) :
    lookup_state df mode codes = (df, lookup df mode codes) := by
  unfold lookup_state
  rw [lookup_eq_flatMap]
  by_cases hm : mode = modeCIAPtoCID
  · rw [if_pos hm, if_pos hm]
    have hfun : (fun (st : List Row × List ResultRec) (c : PyStr) =>
        let df := st.1
        let hit := df.filter (fun row => row.CIAP_N == c)
        if hit.isEmpty then
          (df, st.2 ++ [{ Entrada := c, Tipo := pys "CIAP", Resultado := NAO_ENCONTRADO,
                          CIAP := c, DescricaoCIAP := [], CID10 := [], DescricaoCID := [] }])
        else
          (df, st.2 ++ hit.map (fun row =>
            { Entrada := c, Tipo := pys "CIAP", Resultado := row.CID10,
              CIAP := row.CIAP, DescricaoCIAP := row.DescricaoCIAP,
              CID10 := row.CID10, DescricaoCID := row.DescricaoCID }))) =
        (fun st c => (st.1, st.2 ++ lookupOneA st.1 c)) := by
      funext st c
      by_cases hc : (st.1.filter (fun row => row.CIAP_N == c)).isEmpty
      · simp [lookupOneA, hc]
      · simp [lookupOneA, hc]
    rw [hfun, foldl_state_pair]
    simp
  · rw [if_neg hm, if_neg hm]
    have hfun : (fun (st : List Row × List ResultRec) (c : PyStr) =>
        let df := st.1
        let hit := df.filter (fun row => row.CID10_N == c)
        if hit.isEmpty then
          (df, st.2 ++ [{ Entrada := c, Tipo := pys "CID", Resultado := NAO_ENCONTRADO,
                          CIAP := [], DescricaoCIAP := [], CID10 := c, DescricaoCID := [] }])
        else
          (df, st.2 ++ hit.map (fun row =>
            { Entrada := c, Tipo := pys "CID", Resultado := row.CIAP,
              CIAP := row.CIAP, DescricaoCIAP := row.DescricaoCIAP,
              CID10 := row.CID10, DescricaoCID := row.DescricaoCID }))) =
        (fun st c => (st.1, st.2 ++ lookupOneB st.1 c)) := by
      funext st c
      by_cases hc : (st.1.filter (fun row => row.CID10_N == c)).isEmpty
      · simp [lookupOneB, hc]
      · simp [lookupOneB, hc]
    rw [hfun, foldl_state_pair]
    simp

/-- C6: `normalize_code` is idempotent: normalizing an already-normalized
string returns it unchanged. -/
theorem C6_normalize_idempotent (s : PyStr) :
    normalize_code (some (normalize_code (some s))) = normalize_code (some s) := by
  have hstrip : pyStrip (normalize_code (some s)) = normalize_code (some s) :=
    pyStrip_of_no_edge _ (normalize_head _) (normalize_last _)
  have hupper : pyUpper (normalize_code (some s)) = normalize_code (some s) :=
    map_id_of_mem (fun c hc => (mem_normalize _ c hc).1)
  have hfilter : removeSpaces (normalize_code (some s)) = normalize_code (some s) :=
    List.filter_eq_self.mpr (fun c hc => (mem_normalize _ c hc).2)
  have hdef : normalize_code (some (normalize_code (some s))) =
      removeSpaces (pyUpper (pyStrip (normalize_code (some s)))) := rfl
  rw [hdef, hstrip, hupper, hfilter]

/-- C4 counterexample: `normalize_code` does not remove internal non-space
whitespace. On the input "A\t1" (code points [65, 9, 49]) the internal tab
(code point 9, a whitespace character) survives normalization, so the output
is not the claimed whitespace-free [65, 49]. -/
theorem C4_counterexample :
    normalize_code (some [65, 9, 49]) = [65, 9, 49] ∧
    9 ∈ normalize_code (some [65, 9, 49]) ∧
    is_py_space 9 = true ∧
    normalize_code (some [65, 9, 49]) ≠ [65, 49] := by
  decide

/-- C4 (amended): `normalize_code` is a total function that returns the empty
string for a null input and otherwise trims leading/trailing whitespace,
uppercases ASCII letters, and removes internal space (U+0020) characters
only: its output contains no space and no lowercase ASCII letter and never
begins or ends with a whitespace character, but other internal whitespace
may remain. -/
theorem C4_amended_normalize :
    normalize_code none = [] ∧
    ∀ s : PyStr,
      ((normalize_code (some s)).all fun c =>
        (c != 32) && !(decide (97 ≤ c ∧ c ≤ 122))) = true ∧
      ((normalize_code (some s)).head?.all fun c => !(is_py_space c)) = true ∧
      ((normalize_code (some s)).getLast?.all fun c => !(is_py_space c)) = true := by
  constructor
  · rfl
  intro s
  refine ⟨?_, normalize_head _, normalize_last _⟩
  rw [List.all_eq_true]
  intro c hc
  obtain ⟨hup, hne⟩ := mem_normalize _ c hc
  have hlow : ¬ (97 ≤ c ∧ c ≤ 122) := by
    intro hcl
    have hdrop : upperChar c = c - 32 := by
      unfold upperChar
      exact if_pos hcl
    rw [hup] at hdrop
    omega
  simp [hne, hlow]

/-- C9: `lookup` never mutates the table: with the dataframe threaded as
explicit state, the table coming out of the lookup loop is the table that
went in, and the records produced agree with the pure `lookup`. -/
theorem C9_no_mutation (df : List Row) (mode : PyStr) (codes : List PyStr) :
    (lookup_state df mode codes).1 = df ∧
    (lookup_state df mode codes).2 = lookup df mode codes := by
  rw [lookup_state_eq]
  exact ⟨rfl, rfl⟩

/-- The matched record the example table produces for input "A01". -/
def recA01 : ResultRec :=
  { Entrada := pys "A01", Tipo := pys "CIAP", Resultado := pys "A09",
    CIAP := pys "A01", DescricaoCIAP := pys "Diarrhea",
    CID10 := pys "A09", DescricaoCID := pys "Diarrhea and gastroenteritis" }

/-- The matched record the example table produces for input "K86". -/
def recK86 : ResultRec :=
  { Entrada := pys "K86", Tipo := pys "CIAP", Resultado := pys "K86",
    CIAP := pys "K86", DescricaoCIAP := pys "Pancreas disorder",
    CID10 := pys "K86", DescricaoCID := pys "Other diseases of pancreas" }

/-- The not-found record the example table produces for input "Z99". -/
def recZ99nf : ResultRec :=
  { Entrada := pys "Z99", Tipo := pys "CIAP", Resultado := NAO_ENCONTRADO,
    CIAP := pys "Z99", DescricaoCIAP := [], CID10 := [], DescricaoCID := [] }

/-- C2: looking up a code that matches no row yields exactly one record with
the not-found sentinel in `Resultado`, `Entrada = c`, the queried vocabulary
slot echoing `c`, every other code/description field empty; the record tests
as not-found (matched = false) under the presentation criterion. -/
theorem C2_not_found (df : List Row) (c : PyStr) (mode : PyStr) :
    (df.filter (fun row => row.CIAP_N == c) = [] →
      lookup df modeCIAPtoCID [c] =
        [{ Entrada := c, Tipo := pys "CIAP", Resultado := NAO_ENCONTRADO,
           CIAP := c, DescricaoCIAP := [], CID10 := [], DescricaoCID := [] }] ∧
      ∀ r ∈ lookup df modeCIAPtoCID [c], is_not_found r = true) ∧
    (mode ≠ modeCIAPtoCID → df.filter (fun row => row.CID10_N == c) = [] →
      lookup df mode [c] =
        [{ Entrada := c, Tipo := pys "CID", Resultado := NAO_ENCONTRADO,
           CIAP := [], DescricaoCIAP := [], CID10 := c, DescricaoCID := [] }] ∧
      ∀ r ∈ lookup df mode [c], is_not_found r = true) := by
  constructor
  · intro hf
    have he : lookup df modeCIAPtoCID [c] =
        [{ Entrada := c, Tipo := pys "CIAP", Resultado := NAO_ENCONTRADO,
           CIAP := c, DescricaoCIAP := [], CID10 := [], DescricaoCID := [] }] := by
      rw [lookup_singleton_A]
      unfold lookupOneA
      simp [hf]
    refine ⟨he, ?_⟩
    rw [he]
    intro r hr
    rw [List.mem_singleton] at hr
    rw [hr]
    simp [is_not_found]
  · intro hm hf
    have he : lookup df mode [c] =
        [{ Entrada := c, Tipo := pys "CID", Resultado := NAO_ENCONTRADO,
           CIAP := [], DescricaoCIAP := [], CID10 := c, DescricaoCID := [] }] := by
      rw [lookup_singleton_B df mode c hm]
      unfold lookupOneB
      simp [hf]
    refine ⟨he, ?_⟩
    rw [he]
    intro r hr
    rw [List.mem_singleton] at hr
    rw [hr]
    simp [is_not_found]

/-- C2 witness: "Z99" matches no row of the example table in CID→CIAP mode
and yields the single not-found record. -/
theorem C2_witness :
    lookup exDf modeCIDtoCIAP [pys "Z99"] =
      [{ Entrada := pys "Z99", Tipo := pys "CID", Resultado := NAO_ENCONTRADO,
         CIAP := [], DescricaoCIAP := [], CID10 := pys "Z99", DescricaoCID := [] }] :=
  (((C2_not_found exDf (pys "Z99") modeCIDtoCIAP).2 (by decide) (by decide))).1

/-- C1 counterexample: the claim "each emitted record has matched=true" fails
on a loaded table whose mapped code column holds the literal sentinel string.
Here exactly one row matches "K86" (k = 1), yet the single record `lookup`
emits tests as not-found under the code's only matched criterion. -/
theorem C1_counterexample :
    (([mkRow (pys "K86") (pys "desc1") (pys "NÃO ENCONTRADO") (pys "desc2")].filter
        (fun row => row.CIAP_N == pys "K86")).length = 1) ∧
    lookup [mkRow (pys "K86") (pys "desc1") (pys "NÃO ENCONTRADO") (pys "desc2")]
        modeCIAPtoCID [pys "K86"] =
      [{ Entrada := pys "K86", Tipo := pys "CIAP", Resultado := pys "NÃO ENCONTRADO",
         CIAP := pys "K86", DescricaoCIAP := pys "desc1",
         CID10 := pys "NÃO ENCONTRADO", DescricaoCID := pys "desc2" }] ∧
    is_not_found
      { Entrada := pys "K86", Tipo := pys "CIAP", Resultado := pys "NÃO ENCONTRADO",
        CIAP := pys "K86", DescricaoCIAP := pys "desc1",
        CID10 := pys "NÃO ENCONTRADO", DescricaoCID := pys "desc2" } = true := by
  decide

/-- C1 (amended): if k ≥ 1 rows of the table have their direction-selected
normalized column equal to `c`, `lookup` emits exactly k records for `c`, in
table row order, each with `Entrada = c` and carrying that row's original
(non-normalized) code/description values verbatim, with `Resultado` holding
the row's mapped code (so the record registers as matched under the app's
sentinel criterion unless the stored mapped code is itself the literal
sentinel string). -/
theorem C1_amended_matches (df : List Row) (c : PyStr) (mode : PyStr) :
    (df.filter (fun row => row.CIAP_N == c) ≠ [] →
      lookup df modeCIAPtoCID [c] =
        (df.filter (fun row => row.CIAP_N == c)).map (fun row =>
          { Entrada := c, Tipo := pys "CIAP", Resultado := row.CID10,
            CIAP := row.CIAP, DescricaoCIAP := row.DescricaoCIAP,
            CID10 := row.CID10, DescricaoCID := row.DescricaoCID }) ∧
      (lookup df modeCIAPtoCID [c]).length =
        (df.filter (fun row => row.CIAP_N == c)).length) ∧
    (mode ≠ modeCIAPtoCID → df.filter (fun row => row.CID10_N == c) ≠ [] →
      lookup df mode [c] =
        (df.filter (fun row => row.CID10_N == c)).map (fun row =>
          { Entrada := c, Tipo := pys "CID", Resultado := row.CIAP,
            CIAP := row.CIAP, DescricaoCIAP := row.DescricaoCIAP,
            CID10 := row.CID10, DescricaoCID := row.DescricaoCID }) ∧
      (lookup df mode [c]).length =
        (df.filter (fun row => row.CID10_N == c)).length) := by
  constructor
  · intro hf
    have hne : (df.filter (fun row => row.CIAP_N == c)).isEmpty = false := by
      simpa [List.isEmpty_iff] using hf
    have he : lookup df modeCIAPtoCID [c] =
        (df.filter (fun row => row.CIAP_N == c)).map (fun row =>
          { Entrada := c, Tipo := pys "CIAP", Resultado := row.CID10,
            CIAP := row.CIAP, DescricaoCIAP := row.DescricaoCIAP,
            CID10 := row.CID10, DescricaoCID := row.DescricaoCID }) := by
      rw [lookup_singleton_A]
      unfold lookupOneA
      simp [hne]
    refine ⟨he, ?_⟩
    rw [he, List.length_map]
  · intro hm hf
    have hne : (df.filter (fun row => row.CID10_N == c)).isEmpty = false := by
      simpa [List.isEmpty_iff] using hf
    have he : lookup df mode [c] =
        (df.filter (fun row => row.CID10_N == c)).map (fun row =>
          { Entrada := c, Tipo := pys "CID", Resultado := row.CIAP,
            CIAP := row.CIAP, DescricaoCIAP := row.DescricaoCIAP,
            CID10 := row.CID10, DescricaoCID := row.DescricaoCID }) := by
      rw [lookup_singleton_B df mode c hm]
      unfold lookupOneB
      simp [hne]
    refine ⟨he, ?_⟩
    rw [he, List.length_map]

/-- C1 witness: on the example table, "A01" matches one row and `lookup`
emits exactly that row's record. -/
theorem C1_amended_witness :
    lookup exDf modeCIAPtoCID [pys "A01"] = [recA01] := by
  have h := ((C1_amended_matches exDf (pys "A01") modeCIDtoCIAP).1 (by decide)).1
  rw [h]
  decide

/-- C3: `lookup`'s output is grouped by input code in input order (the
records of a prefix of the code list precede those of the rest, so duplicate
codes produce their own independent groups), every record in a code's group
carries that code as `Entrada`, and within one code's group the matching
rows appear in table row order (the projected records form a sublist of the
projected table). -/
theorem C3_order (df : List Row) (mode : PyStr) (cs₁ cs₂ : List PyStr) (c : PyStr) :
    lookup df mode (cs₁ ++ cs₂) = lookup df mode cs₁ ++ lookup df mode cs₂ ∧
    (∀ r ∈ lookup df mode [c], r.Entrada = c) ∧
    (df.filter (fun row => row.CIAP_N == c) ≠ [] →
      ((lookup df modeCIAPtoCID [c]).map (fun r => (r.CIAP, r.CID10))).Sublist
        (df.map (fun row => (row.CIAP, row.CID10)))) ∧
    (mode ≠ modeCIAPtoCID → df.filter (fun row => row.CID10_N == c) ≠ [] →
      ((lookup df mode [c]).map (fun r => (r.CIAP, r.CID10))).Sublist
        (df.map (fun row => (row.CIAP, row.CID10)))) := by
  refine ⟨lookup_append df mode cs₁ cs₂, ?_, ?_, ?_⟩
  · intro r hr
    by_cases hm : mode = modeCIAPtoCID
    · rw [hm, lookup_singleton_A] at hr
      unfold lookupOneA at hr
      by_cases hc : (df.filter (fun row => row.CIAP_N == c)).isEmpty
      · simp [hc] at hr
        rw [hr]
      · simp [hc] at hr
        obtain ⟨row, hrow, he⟩ := hr
        rw [← he]
    · rw [lookup_singleton_B df mode c hm] at hr
      unfold lookupOneB at hr
      by_cases hc : (df.filter (fun row => row.CID10_N == c)).isEmpty
      · simp [hc] at hr
        rw [hr]
      · simp [hc] at hr
        obtain ⟨row, hrow, he⟩ := hr
        rw [← he]
  · intro hf
    have hne : (df.filter (fun row => row.CIAP_N == c)).isEmpty = false := by
      simpa [List.isEmpty_iff] using hf
    rw [lookup_singleton_A]
    unfold lookupOneA
    simp only [hne, Bool.false_eq_true, if_false, List.map_map]
    exact (List.filter_sublist df).map _
  · intro hm hf
    have hne : (df.filter (fun row => row.CID10_N == c)).isEmpty = false := by
      simpa [List.isEmpty_iff] using hf
    rw [lookup_singleton_B df mode c hm]
    unfold lookupOneB
    simp only [hne, Bool.false_eq_true, if_false, List.map_map]
    exact (List.filter_sublist df).map _

/-- C3 witness: duplicate input "A01" twice on the example table splits into
two independent equal groups; the group's record carries `Entrada = "A01"`
and its projection is a sublist of the projected table. -/
theorem C3_witness :
    lookup exDf modeCIAPtoCID ([pys "A01"] ++ [pys "A01"]) =
      lookup exDf modeCIAPtoCID [pys "A01"] ++ lookup exDf modeCIAPtoCID [pys "A01"] ∧
    recA01.Entrada = pys "A01" ∧
    ((lookup exDf modeCIAPtoCID [pys "A01"]).map (fun r => (r.CIAP, r.CID10))).Sublist
      (exDf.map (fun row => (row.CIAP, row.CID10))) :=
  ⟨(C3_order exDf modeCIAPtoCID [pys "A01"] [pys "A01"] (pys "A01")).1,
   (C3_order exDf modeCIAPtoCID [] [] (pys "A01")).2.1 recA01 (by decide),
   (C3_order exDf modeCIAPtoCID [] [] (pys "A01")).2.2.1 (by decide)⟩

/-- C5: `load_base` succeeds exactly when both required code columns are
present, and any absent optional description column is materialized as the
empty string on every loaded row. -/
theorem C5_load_schema (src : Source) :
    ((load_base src).isOk = true ↔
      (pys "CIAP" ∈ src.cols ∧ pys "CID10" ∈ src.cols)) ∧
    (pys "DescricaoCIAP" ∉ src.cols →
      (((load_base src).toOption.getD []).all fun r => r.DescricaoCIAP == []) = true) ∧
    (pys "DescricaoCID" ∉ src.cols →
      (((load_base src).toOption.getD []).all fun r => r.DescricaoCID == []) = true) := by
  by_cases h : pys "CIAP" ∈ src.cols ∧ pys "CID10" ∈ src.cols
  · have hok : load_base src = Except.ok (src.cells.map (fun r =>
        { CIAP := getField src.cols r (pys "CIAP"),
          DescricaoCIAP :=
            if (pys "DescricaoCIAP") ∈ src.cols then
              getField src.cols r (pys "DescricaoCIAP")
            else [],
          CID10 := getField src.cols r (pys "CID10"),
          DescricaoCID :=
            if (pys "DescricaoCID") ∈ src.cols then
              getField src.cols r (pys "DescricaoCID")
            else [],
          CIAP_N := normalize_code (some (getField src.cols r (pys "CIAP"))),
          CID10_N := normalize_code (some (getField src.cols r (pys "CID10"))) })) := by
      unfold load_base
      rw [if_pos h]
    refine ⟨?_, ?_, ?_⟩
    · rw [hok]
      simp [Except.isOk, Except.toBool, h]
    · intro hd
      rw [hok]
      simp only [Except.toOption, Option.getD, List.all_eq_true]
      intro r hr
      obtain ⟨cell, hcell, he⟩ := List.mem_map.1 hr
      rw [← he]
      simp [hd]
    · intro hd
      rw [hok]
      simp only [Except.toOption, Option.getD, List.all_eq_true]
      intro r hr
      obtain ⟨cell, hcell, he⟩ := List.mem_map.1 hr
      rw [← he]
      simp [hd]
  · have herr : load_base src =
        Except.error { required := [pys "CIAP", pys "CID10"], found := src.cols } := by
      unfold load_base
      rw [if_neg h]
    rw [herr]
    refine ⟨by simp [Except.isOk, Except.toBool, h], ?_, ?_⟩
    · intro _
      rfl
    · intro _
      rfl

/-- A well-formed source that lacks only the optional DescricaoCIAP column. -/
def srcW : Source :=
  { cols := [pys "CIAP", pys "CID10", pys "DescricaoCID"],
    cells := [[pys "a 01", pys "B2", pys "descr"]] }

/-- C5 witness: the source missing only `DescricaoCIAP` loads successfully
and every loaded row has an empty `DescricaoCIAP`. -/
theorem C5_witness :
    (load_base srcW).isOk = true ∧
    (((load_base srcW).toOption.getD []).all fun r => r.DescricaoCIAP == []) = true :=
  ⟨(C5_load_schema srcW).1.mpr (by decide), (C5_load_schema srcW).2.1 (by decide)⟩

deriving instance DecidableEq for Except

/-- A source whose only columns are CIAP and DescricaoCIAP (CID10 missing). -/
def srcC8 : Source :=
  { cols := [pys "CIAP", pys "DescricaoCIAP"], cells := [] }

/-- C8 counterexample: when only `CID10` is missing, the raised error does not
name the missing column(s) specifically: it names the whole required set, so
it also names `CIAP`, a column that is present, not missing. -/
theorem C8_counterexample :
    load_base srcC8 =
      Except.error { required := [pys "CIAP", pys "CID10"], found := srcC8.cols } ∧
    pys "CIAP" ∈ ([pys "CIAP", pys "CID10"] : List PyStr) ∧
    pys "CIAP" ∈ srcC8.cols ∧
    pys "CID10" ∉ srcC8.cols := by
  decide

/-- C8 (amended): when a required column is absent, the error carries the full
required column set {CIAP, CID10} — a superset of the missing columns — and
the list of columns actually found in the source. -/
theorem C8_amended_error (src : Source)
    (h : ¬ (pys "CIAP" ∈ src.cols ∧ pys "CID10" ∈ src.cols)) :
    load_base src =
      Except.error { required := [pys "CIAP", pys "CID10"], found := src.cols } := by
  unfold load_base
  rw [if_neg h]

/-- C8 witness: loading a source with a single unrelated column fails with
the error naming the required set and the found columns. -/
theorem C8_amended_witness :
    load_base { cols := [pys "foo"], cells := [] } =
      Except.error { required := [pys "CIAP", pys "CID10"], found := [pys "foo"] } :=
  C8_amended_error { cols := [pys "foo"], cells := [] } (by decide)

/-- The not-found record produced for the raw (un-normalized) input "a01". -/
def recA01raw : ResultRec :=
  { Entrada := pys "a01", Tipo := pys "CIAP", Resultado := NAO_ENCONTRADO,
    CIAP := pys "a01", DescricaoCIAP := [], CID10 := [], DescricaoCID := [] }

/-- C7 counterexample: calling `lookup` with the raw codes ["a01","K86","Z99"]
exactly as the claim states does NOT yield a matched A01→A09 record: the
lowercase "a01" never equals the normalized column "A01", so the first
emitted record is a not-found record with empty CID10. -/
theorem C7_counterexample :
    lookup exDf modeCIAPtoCID [pys "a01", pys "K86", pys "Z99"] =
      [recA01raw, recK86, recZ99nf] ∧
    is_not_found recA01raw = true ∧
    recA01raw.CID10 ≠ pys "A09" := by
  decide

/-- C7 (amended): with the input codes first normalized (as the lookup
contract requires of callers), the example behaves as described: "a01"
yields the matched A01→A09 record, "K86" the matched K86→K86 record, and
"Z99" a single not-found record. -/
theorem C7_amended_example :
    lookup exDf modeCIAPtoCID
        ([pys "a01", pys "K86", pys "Z99"].map (fun s => normalize_code (some s))) =
      [recA01, recK86, recZ99nf] ∧
    is_not_found recA01 = false ∧
    is_not_found recK86 = false ∧
    is_not_found recZ99nf = true := by
  decide

/-- A loaded row whose stored CID10 cell is literally the sentinel string. -/
def rowSent : Row :=
  mkRow (pys "A01") (pys "febre") (pys "NÃO ENCONTRADO") (pys "outra")

/-- The record `lookup` emits for the matching row of `rowSent`. -/
def recSentHit : ResultRec :=
  { Entrada := pys "A01", Tipo := pys "CIAP", Resultado := pys "NÃO ENCONTRADO",
    CIAP := pys "A01", DescricaoCIAP := pys "febre",
    CID10 := pys "NÃO ENCONTRADO", DescricaoCID := pys "outra" }

/-- The not-found record `lookup` emits for the unmatched code "Z99". -/
def recSentNf : ResultRec :=
  { Entrada := pys "Z99", Tipo := pys "CIAP", Resultado := NAO_ENCONTRADO,
    CIAP := pys "Z99", DescricaoCIAP := [], CID10 := [], DescricaoCID := [] }

/-- C10: the matched/not-found distinction is carried only by the `Resultado`
field holding the sentinel string, not by a separate boolean: on a table with
a row whose mapped code column literally equals "NÃO ENCONTRADO", the record
of a successfully matched row (exactly one row matches "A01") is
indistinguishable by the matched/not-found criterion from the genuine
not-found record emitted for the unmatched code "Z99". -/
theorem C10_sentinel_encoding :
    ([rowSent].filter (fun row => row.CIAP_N == pys "A01")).length = 1 ∧
    lookup [rowSent] modeCIAPtoCID [pys "A01", pys "Z99"] = [recSentHit, recSentNf] ∧
    is_not_found recSentHit = true ∧
    is_not_found recSentNf = true ∧
    recSentHit.Resultado = recSentNf.Resultado := by
  decide

